import Mathlib

/-!
Verification of the aiohttp `web.py` lifecycle module: the endpoint set
builder, the `run_app` lifecycle driver, and the `main` CLI boundary.

The builder logic is embedded directly from `run_app` (src/aiohttp/web.py,
lines 86-136): the host / path / sock arguments each accept either a single
value or a sequence, and each contributes sites additively.
-/

namespace Aiohttp

/-- An address argument to `run_app`: Python accepts either a single value
(`str` for host/path, one socket for sock) or a sequence of values. -/
inductive ArgSpec (α : Type) where
  | single (a : α) : ArgSpec α
  | seq (l : List α) : ArgSpec α
  deriving DecidableEq, Repr

/-- A constructed site, as built by `run_app`: `TCPSite(runner, host, port)`
(the wildcard variant passes no host, hence `Option String`),
`UnixSite(runner, path)`, or `SockSite(runner, sock)` (a socket handle is
abstracted as a numeric descriptor). -/
inductive Site where
  | tcp (host : Option String) (port : Option Nat) : Site
  | unix (path : String) : Site
  | sock (fd : Nat) : Site
  deriving DecidableEq, Repr

/-- The site list built by `run_app` (src/aiohttp/web.py lines 86-136).
The branches mirror the source:
if `host is not None` a TCP site per host string;
`elif path is None and sock is None or port is not None` one wildcard TCP
site (Python precedence: `(path is None and sock is None) or (port is not
None)`); then one Unix site per path and one sock site per socket. -/
def buildSites (host : Option (ArgSpec String)) (port : Option Nat)
    (path : Option (ArgSpec String)) (sock : Option (ArgSpec Nat)) :
    List Site :=
  (match host with
    | some (ArgSpec.single h) => [Site.tcp (some h) port]
    | some (ArgSpec.seq hs) => hs.map (fun h => Site.tcp (some h) port)
    | none =>
        if (path.isNone && sock.isNone) || port.isSome then
          [Site.tcp none port]
        else []) ++
  (match path with
    | some (ArgSpec.single p) => [Site.unix p]
    | some (ArgSpec.seq ps) => ps.map Site.unix
    | none => []) ++
  (match sock with
    | some (ArgSpec.single s) => [Site.sock s]
    | some (ArgSpec.seq ss) => ss.map Site.sock
    | none => [])

/-- The endpoint set of spec section 4.1, written from the spec's resolution
rules: rule 1 (host supplied: one TCP endpoint per address, shared port),
rule 2 (else, when no path and no socket were supplied or a port was
explicitly supplied: one wildcard TCP endpoint), rule 3 (one unix-domain
endpoint per path), rule 4 (one prebound-socket endpoint per handle), all
matching rules contributing additively in order. -/
def specSites (host : Option (ArgSpec String)) (port : Option Nat)
    (path : Option (ArgSpec String)) (sock : Option (ArgSpec Nat)) :
    List Site :=
  (match host with
    | some (ArgSpec.single h) => [Site.tcp (some h) port]
    | some (ArgSpec.seq hs) => hs.map (fun h => Site.tcp (some h) port)
    | none =>
        if (path = none ∧ sock = none) ∨ port ≠ none then
          [Site.tcp none port]
        else []) ++
  (match path with
    | some (ArgSpec.single p) => [Site.unix p]
    | some (ArgSpec.seq ps) => ps.map Site.unix
    | none => []) ++
  (match sock with
    | some (ArgSpec.single s) => [Site.sock s]
    | some (ArgSpec.seq ss) => ss.map Site.sock
    | none => [])

/-- C1: for every combination of host, port, path and sock arguments, the
site list built by `run_app` is exactly the union of endpoints implied by
the matching resolution rules of spec section 4.1; in particular a single
host gives one TCP site, a host sequence one TCP site per element on the
shared port, no binding information at all (port 9) gives one wildcard TCP
site on port 9, no host with path "/x" gives exactly one Unix site and no
TCP site, and paths and sockets contribute additively. -/
theorem C1_builder_matches_rules :
    (∀ host port path sock, buildSites host port path sock =
      specSites host port path sock) ∧
    (∀ h p, buildSites (some (ArgSpec.single h)) p none none =
      [Site.tcp (some h) p]) ∧
    (buildSites (some (ArgSpec.seq ["a", "b"])) (some 9) none none =
      [Site.tcp (some "a") (some 9), Site.tcp (some "b") (some 9)]) ∧
    (buildSites none (some 9) none none = [Site.tcp none (some 9)]) ∧
    (buildSites none none (some (ArgSpec.single "/x")) none =
      [Site.unix "/x"]) := by
  refine ⟨?_, ?_, ?_, ?_, ?_⟩
  · intro host port path sock
    cases host with
    | some hs => cases hs <;> rfl
    | none =>
        cases path <;> cases sock <;> cases port <;>
          simp [buildSites, specSites]
  · intro h p; rfl
  · rfl
  · rfl
  · rfl

/-- C2 counterexample: with an explicitly supplied but empty host sequence
and no other binding information, the built site list is empty,
contradicting the claim that it is non-empty for every combination. -/
theorem C2_counterexample :
    buildSites (some (ArgSpec.seq [])) none none none = [] := rfl

/-- C2 (amended): provided every supplied sequence argument is non-empty,
the site list built by `run_app` is non-empty; and when host, path and sock
are all absent exactly one wildcard TCP site with the given (or default)
port is built. -/
theorem C2_sites_nonempty (host : Option (ArgSpec String)) (port : Option Nat)
    (path : Option (ArgSpec String)) (sock : Option (ArgSpec Nat))
    (hh : ∀ l, host = some (ArgSpec.seq l) → l ≠ [])
    (hp : ∀ l, path = some (ArgSpec.seq l) → l ≠ [])
    (hs : ∀ l, sock = some (ArgSpec.seq l) → l ≠ []) :
    buildSites host port path sock ≠ [] ∧
    buildSites none port none none = [Site.tcp none port] := by
  constructor
  · cases host with
    | some h =>
        cases h with
        | single a => simp [buildSites]
        | seq l => simp [buildSites, hh l rfl]
    | none =>
        cases path with
        | some p =>
            cases p with
            | single a => simp [buildSites]
            | seq l => simp [buildSites, hp l rfl]
        | none =>
            cases sock with
            | some s =>
                cases s with
                | single a => simp [buildSites]
                | seq l => simp [buildSites, hs l rfl]
            | none => simp [buildSites]
  · rfl

/-- C2 witness: the amended theorem at a concrete input (all arguments
absent, port 8080). -/
theorem C2_witness :
    buildSites none (some 8080) none none ≠ [] ∧
    buildSites none (some 8080) none none = [Site.tcp none (some 8080)] :=
  C2_sites_nonempty none (some 8080) none none
    (fun l h => by cases h) (fun l h => by cases h) (fun l h => by cases h)

/-- C3: with no host but an explicitly supplied port, `run_app` builds one
wildcard TCP site on that port in front of exactly the Unix/sock sites that
the path and sock arguments contribute; with no host and no port and a path
or sock supplied, no TCP site at all is built. -/
theorem C3_port_forces_wildcard_tcp (p : Nat) (path : Option (ArgSpec String))
    (sock : Option (ArgSpec Nat)) (hps : path ≠ none ∨ sock ≠ none) :
    buildSites none (some p) path sock =
      Site.tcp none (some p) :: buildSites none none path sock ∧
    ∀ h q, Site.tcp h q ∉ buildSites none none path sock := by
  constructor
  · rcases hps with h | h
    · cases path with
      | none => exact absurd rfl h
      | some ps => cases sock <;> simp [buildSites]
    · cases sock with
      | none => exact absurd rfl h
      | some ss => cases path <;> simp [buildSites]
  · intro h q
    cases path with
    | none =>
        cases sock with
        | none => rcases hps with hne | hne <;> exact absurd rfl hne
        | some ss => cases ss <;> simp [buildSites]
    | some ps =>
        cases sock with
        | none => cases ps <;> simp [buildSites]
        | some ss => cases ps <;> cases ss <;> simp [buildSites]

/-- C3 witness: the theorem at port 9 with path "/x" and no sock. -/
theorem C3_witness :
    buildSites none (some 9) (some (ArgSpec.single "/x")) none =
      Site.tcp none (some 9) ::
        buildSites none none (some (ArgSpec.single "/x")) none ∧
    ∀ h q, Site.tcp h q ∉
      buildSites none none (some (ArgSpec.single "/x")) none :=
  C3_port_forces_wildcard_tcp 9 (some (ArgSpec.single "/x")) none
    (Or.inl (by simp))

/-- An observable event of a `run_app` execution: application setup
succeeding or raising, a `site.start()` call completing or raising (indexed
by position in the site list), printing the banner, entering
`loop.run_forever()`, `runner.cleanup()`, a site being stopped during
cleanup, and the final `loop.close()`. -/
inductive Ev where
  | setupOk : Ev
  | setupFail : Ev
  | siteStart (i : Nat) : Ev
  | siteStartFail (i : Nat) : Ev
  | printBanner : Ev
  | serveWait : Ev
  | cleanup : Ev
  | siteStop (i : Nat) : Ev
  | loopClose : Ev
  deriving DecidableEq, Repr

/-- How `loop.run_forever()` ends: `GracefulExit`, `KeyboardInterrupt`
(both caught by the `except` clause at line 145), or any other exception. -/
inductive ServeEnd where
  | gracefulExit : ServeEnd
  | keyboardInterrupt : ServeEnd
  | failure (e : String) : ServeEnd
  deriving DecidableEq, Repr

/-- The outcomes of the effectful operations a `run_app` execution performs:
whether `runner.setup()` raises, whether `site.start()` raises for the site
at each index, how the serve-wait ends, and whether the `print` argument is
truthy (line 140 guards the banner on it). -/
structure Env where
  setupErr : Option String
  startErr : Nat → Option String
  serveEnd : ServeEnd
  printEnabled : Bool

/-- The sequential start loop of `run_app` (lines 137-138:
`for site in sites: loop.run_until_complete(site.start())`), beginning at
index `i` with `n` sites remaining: returns the trace of start events, the
number of successful starts, and the first raised error if any. -/
def startLoop (f : Nat → Option String) : Nat → Nat → List Ev × Nat × Option String
  | _, 0 => ([], 0, none)
  | i, n + 1 =>
      match f i with
      | some e => ([Ev.siteStartFail i], 0, some e)
      | none =>
          let r := startLoop f (i + 1) n
          (Ev.siteStart i :: r.1, r.2.1 + 1, r.2.2)

/-- Modelled from the spec: `AppRunner.cleanup` lives in `web_runner.py`,
which is not among the source files; spec section 4.2 says cleanup stops
every registered endpoint, and the endpoints registered are exactly the
sites whose `start()` succeeded (indices `0, ..., k-1`). -/
def cleanupEvents (k : Nat) : List Ev :=
  Ev.cleanup :: (List.range k).map Ev.siteStop

/-- The lifecycle of `run_app` (src/aiohttp/web.py lines 84-152) as a trace
of events plus the propagated error, if any.  `runner.setup()` (line 84)
runs before the `try` block that begins at line 88, so a setup error
propagates without cleanup.  Inside the `try`, the sites are started one by
one; on success the banner is printed (when `print` is truthy) and
`loop.run_forever()` blocks; `GracefulExit` and `KeyboardInterrupt` are
swallowed; the `finally` clause runs `runner.cleanup()` once on every exit
from the block; `loop.close()` (lines 149-152) is reached only when no
error propagates. -/
def runApp (env : Env) (sites : List Site) : List Ev × Option String :=
  match env.setupErr with
  | some e => ([Ev.setupFail], some e)
  | none =>
      match startLoop env.startErr 0 sites.length with
      | (tr, k, some e) => (Ev.setupOk :: (tr ++ cleanupEvents k), some e)
      | (tr, k, none) =>
          let banner := if env.printEnabled then [Ev.printBanner] else []
          match env.serveEnd with
          | ServeEnd.failure e =>
              (Ev.setupOk :: (tr ++ banner ++ [Ev.serveWait] ++
                cleanupEvents k), some e)
          | _ =>
              (Ev.setupOk :: (tr ++ banner ++ [Ev.serveWait] ++
                cleanupEvents k ++ [Ev.loopClose]), none)

/-- When no start in the window fails, the start loop emits one successful
start event per site, in index order. -/
theorem startLoop_ok (f : Nat → Option String) :
    ∀ n i, (∀ j, j < n → f (i + j) = none) →
    startLoop f i n = ((List.range' i n).map Ev.siteStart, n, none) := by
  intro n
  induction n with
  | zero => intro i _; rfl
  | succ m ih =>
      intro i h
      have h0 : f i = none := by simpa using h 0 (Nat.succ_pos m)
      have hrest : ∀ j, j < m → f (i + 1 + j) = none := by
        intro j hj
        have := h (j + 1) (by omega)
        simpa [Nat.add_assoc, Nat.add_comm 1 j] using this
      simp [startLoop, h0, ih (i + 1) hrest, List.range'_succ]

/-- When the first failing start in the window is at offset `k`, the start
loop emits `k` successful start events, the failure event, and stops. -/
theorem startLoop_fail (f : Nat → Option String) (e : String) :
    ∀ n i k, k < n → f (i + k) = some e → (∀ j, j < k → f (i + j) = none) →
    startLoop f i n =
      ((List.range' i k).map Ev.siteStart ++ [Ev.siteStartFail (i + k)],
        k, some e) := by
  intro n
  induction n with
  | zero => intro i k hk; omega
  | succ m ih =>
      intro i k hk hfk hprev
      cases k with
      | zero =>
          have h0 : f i = some e := by simpa using hfk
          simp [startLoop, h0]
      | succ k' =>
          have h0 : f i = none := by simpa using hprev 0 (Nat.succ_pos k')
          have hfk' : f (i + 1 + k') = some e := by
            have : i + 1 + k' = i + (k' + 1) := by omega
            rw [this]; exact hfk
          have hprev' : ∀ j, j < k' → f (i + 1 + j) = none := by
            intro j hj
            have := hprev (j + 1) (by omega)
            simpa [Nat.add_assoc, Nat.add_comm 1 j] using this
          have := ih (i + 1) k' (by omega) hfk' hprev'
          simp [startLoop, h0, this, List.range'_succ]
          omega

/-- The start loop never emits a cleanup event. -/
theorem startLoop_count_cleanup (f : Nat → Option String) :
    ∀ n i, ((startLoop f i n).1).count Ev.cleanup = 0 := by
  intro n
  induction n with
  | zero => intro i; rfl
  | succ m ih =>
      intro i
      cases hf : f i <;> simp [startLoop, hf, ih]

/-- Cleanup emits exactly one cleanup event (the stop events are distinct
constructors). -/
theorem cleanupEvents_count (k : Nat) :
    (cleanupEvents k).count Ev.cleanup = 1 := by
  simp [cleanupEvents, List.count_cons]
  exact List.count_eq_zero.mpr (by simp)

/-- Whenever setup succeeds, every execution path of `run_app` — normal
interrupt return, serve-wait raising, or a site start raising — runs
cleanup exactly once. -/
theorem runApp_count_cleanup (env : Env) (sites : List Site)
    (hsetup : env.setupErr = none) :
    ((runApp env sites).1).count Ev.cleanup = 1 := by
  rcases hsl : startLoop env.startErr 0 sites.length with ⟨tr, k, err⟩
  have htr : tr.count Ev.cleanup = 0 := by
    have := startLoop_count_cleanup env.startErr sites.length 0
    rw [hsl] at this; exact this
  have hce := cleanupEvents_count k
  cases err with
  | some e =>
      simp [runApp, hsetup, hsl, List.count_append, htr, hce]
  | none =>
      cases hpe : env.printEnabled <;> cases hse : env.serveEnd <;>
        simp [runApp, hsetup, hsl, hse, hpe, List.count_append, htr, hce]

/-- The trace of a run in which setup succeeds and the start of the site at
index `k` raises, all earlier starts having succeeded. -/
theorem runApp_start_fail (env : Env) (sites : List Site) (k : Nat)
    (e : String) (hsetup : env.setupErr = none) (hk : k < sites.length)
    (hfail : env.startErr k = some e)
    (hok : ∀ j, j < k → env.startErr j = none) :
    runApp env sites =
      (Ev.setupOk :: ((List.range k).map Ev.siteStart ++
        [Ev.siteStartFail k] ++ cleanupEvents k), some e) := by
  have h := startLoop_fail env.startErr e sites.length 0 k hk
    (by simpa using hfail) (by intro j hj; simpa using hok j hj)
  simp [runApp, hsetup, h, ← List.range_eq_range']

/-- The trace of a run in which setup and every site start succeed splits
as: setup, all starts in index order, the banner, the serve-wait, and then
a remainder (cleanup and close). -/
theorem runApp_ok_split (env : Env) (sites : List Site)
    (hsetup : env.setupErr = none)
    (hok : ∀ j, j < sites.length → env.startErr j = none) :
    ∃ rest, (runApp env sites).1 =
      Ev.setupOk :: ((List.range sites.length).map Ev.siteStart ++
        (if env.printEnabled then [Ev.printBanner] else []) ++
        [Ev.serveWait] ++ rest) := by
  have h := startLoop_ok env.startErr sites.length 0
    (by intro j hj; simpa using hok j hj)
  cases hse : env.serveEnd with
  | gracefulExit =>
      exact ⟨cleanupEvents sites.length ++ [Ev.loopClose], by
        simp [runApp, hsetup, h, hse, ← List.range_eq_range',
          List.append_assoc]⟩
  | keyboardInterrupt =>
      exact ⟨cleanupEvents sites.length ++ [Ev.loopClose], by
        simp [runApp, hsetup, h, hse, ← List.range_eq_range',
          List.append_assoc]⟩
  | failure e =>
      exact ⟨cleanupEvents sites.length, by
        simp [runApp, hsetup, h, hse, ← List.range_eq_range',
          List.append_assoc]⟩

/-- The full trace and result of a run in which setup and every start
succeed and the serve-wait ends in `GracefulExit` or `KeyboardInterrupt`. -/
theorem runApp_interrupt_trace (env : Env) (sites : List Site)
    (hsetup : env.setupErr = none)
    (hok : ∀ j, j < sites.length → env.startErr j = none)
    (hint : env.serveEnd = ServeEnd.gracefulExit ∨
      env.serveEnd = ServeEnd.keyboardInterrupt) :
    runApp env sites =
      (Ev.setupOk :: ((List.range sites.length).map Ev.siteStart ++
        (if env.printEnabled then [Ev.printBanner] else []) ++
        [Ev.serveWait] ++ cleanupEvents sites.length ++ [Ev.loopClose]),
       none) := by
  have h := startLoop_ok env.startErr sites.length 0
    (by intro j hj; simpa using hok j hj)
  rcases hint with hse | hse <;>
    simp [runApp, hsetup, h, hse, ← List.range_eq_range', List.append_assoc]

/-- A run whose setup raises, used to exhibit the missing cleanup. -/
def envSetupBoom : Env :=
  ⟨some "boom", fun _ => none, ServeEnd.gracefulExit, true⟩

/-- C4 counterexample: when `runner.setup()` raises, `run_app` propagates
the error without ever running `runner.cleanup()` — the setup call at line
84 precedes the `try` block whose `finally` runs cleanup — so cleanup does
not execute exactly once on every run. -/
theorem C4_counterexample :
    ((runApp envSetupBoom [Site.tcp none (some 8080)]).1).count Ev.cleanup
      = 0 ∧
    (runApp envSetupBoom [Site.tcp none (some 8080)]).2 = some "boom" :=
  ⟨by decide, rfl⟩

/-- C4 (amended): for every run of `run_app` in which `runner.setup()`
succeeds — normal return after an interrupt, or an exit because a site
start or the serve-wait raised — `runner.cleanup()` executes exactly once
before `run_app` returns or propagates the error; when setup itself raises,
cleanup is not executed at all. -/
theorem C4_cleanup_exactly_once (env : Env) (sites : List Site)
    (hsetup : env.setupErr = none) :
    ((runApp env sites).1).count Ev.cleanup = 1 :=
  runApp_count_cleanup env sites hsetup

/-- A run whose setup succeeds and whose serve-wait raises an arbitrary
exception, used as the C4 witness input. -/
def envC4 : Env :=
  ⟨none, fun _ => none, ServeEnd.failure "oops", true⟩

/-- C4 witness: the amended theorem at a concrete input. -/
theorem C4_witness :
    ((runApp envC4 [Site.unix "/tmp/a.sock"]).1).count Ev.cleanup = 1 :=
  C4_cleanup_exactly_once envC4 [Site.unix "/tmp/a.sock"] rfl

/-- A run whose setup raises, used as the C5 counterexample input. -/
def envSetupCrash : Env :=
  ⟨some "init failed", fun _ => none, ServeEnd.gracefulExit, true⟩

/-- C5 counterexample: when `runner.setup()` raises, `run_app` does not
attempt `runner.cleanup()` before propagating the error, contradicting the
claim that cleanup is still attempted. -/
theorem C5_counterexample :
    Ev.cleanup ∉ (runApp envSetupCrash [Site.tcp none none]).1 ∧
    (runApp envSetupCrash [Site.tcp none none]).2 = some "init failed" :=
  ⟨by decide, rfl⟩

/-- C5 (amended): if `runner.setup()` raises, `run_app` starts no site and
the error propagates to the caller, but `runner.cleanup()` is never
attempted (the setup call precedes the `try`/`finally` block). -/
theorem C5_setup_failure (env : Env) (sites : List Site) (e : String)
    (hsetup : env.setupErr = some e) :
    (runApp env sites).2 = some e ∧
    (∀ i, Ev.siteStart i ∉ (runApp env sites).1) ∧
    Ev.cleanup ∉ (runApp env sites).1 := by
  refine ⟨?_, ?_, ?_⟩ <;> simp [runApp, hsetup]

/-- A run whose setup raises, used as the C5 witness input. -/
def envC5 : Env :=
  ⟨some "prep", fun _ => none, ServeEnd.gracefulExit, true⟩

/-- C5 witness: the amended theorem at a concrete input. -/
theorem C5_witness :
    (runApp envC5 [Site.unix "/y"]).2 = some "prep" ∧
    (∀ i, Ev.siteStart i ∉ (runApp envC5 [Site.unix "/y"]).1) ∧
    Ev.cleanup ∉ (runApp envC5 [Site.unix "/y"]).1 :=
  C5_setup_failure envC5 [Site.unix "/y"] "prep" rfl

/-- C6: a `GracefulExit` or `KeyboardInterrupt` raised while blocked in
the serve-wait is absorbed: `run_app` runs cleanup exactly once and
returns normally (no error propagates, so the process exits with code 0). -/
theorem C6_interrupt_absorbed (env : Env) (sites : List Site)
    (hsetup : env.setupErr = none)
    (hok : ∀ j, j < sites.length → env.startErr j = none)
    (hint : env.serveEnd = ServeEnd.gracefulExit ∨
      env.serveEnd = ServeEnd.keyboardInterrupt) :
    (runApp env sites).2 = none ∧
    ((runApp env sites).1).count Ev.cleanup = 1 := by
  have h := runApp_interrupt_trace env sites hsetup hok hint
  exact ⟨by rw [h], runApp_count_cleanup env sites hsetup⟩

/-- A run interrupted by `KeyboardInterrupt` during serve-wait, used as the
C6 witness input. -/
def envC6 : Env :=
  ⟨none, fun _ => none, ServeEnd.keyboardInterrupt, true⟩

/-- C6 witness: the theorem at a concrete input. -/
theorem C6_witness :
    (runApp envC6 [Site.tcp (some "localhost") (some 8080)]).2 = none ∧
    ((runApp envC6 [Site.tcp (some "localhost") (some 8080)]).1).count
      Ev.cleanup = 1 :=
  C6_interrupt_absorbed envC6 [Site.tcp (some "localhost") (some 8080)]
    rfl (fun j _ => rfl) (Or.inr rfl)

/-- C7: when the start of the site at index `k` raises and all earlier
starts succeeded, every already-started site is stopped by the single
ensuing cleanup, no site after index `k` is ever started, the banner is
never printed, and the failure propagates. -/
theorem C7_partial_start_failure (env : Env) (sites : List Site) (k : Nat)
    (e : String) (hsetup : env.setupErr = none) (hk : k < sites.length)
    (hfail : env.startErr k = some e)
    (hok : ∀ j, j < k → env.startErr j = none) :
    (∀ j, j < k → Ev.siteStop j ∈ (runApp env sites).1) ∧
    (∀ j, k < j → Ev.siteStart j ∉ (runApp env sites).1 ∧
      Ev.siteStartFail j ∉ (runApp env sites).1) ∧
    Ev.printBanner ∉ (runApp env sites).1 ∧
    ((runApp env sites).1).count Ev.cleanup = 1 ∧
    (runApp env sites).2 = some e := by
  have h := runApp_start_fail env sites k e hsetup hk hfail hok
  rw [h]
  refine ⟨?_, ?_, ?_, ?_, rfl⟩
  · intro j hj
    simp [cleanupEvents]
    exact hj
  · intro j hj
    constructor <;> simp [cleanupEvents] <;> omega
  · simp [cleanupEvents]
  · have h0 : ((List.range k).map Ev.siteStart).count Ev.cleanup = 0 :=
      List.count_eq_zero.mpr (by simp)
    simp [List.count_append, h0, cleanupEvents_count k]

/-- A run of three sites in which the second fails to bind, used as the C7
witness input. -/
def envC7 : Env :=
  ⟨none, fun i => if i = 1 then some "address in use" else none,
    ServeEnd.gracefulExit, true⟩

/-- The three TCP sites of the partial-startup scenario. -/
def sitesThree : List Site :=
  [Site.tcp (some "a") (some 1), Site.tcp (some "b") (some 2),
    Site.tcp (some "c") (some 3)]

/-- C7 witness: the theorem at the scenario of spec section 8 — three TCP
sites, the second failing to bind. -/
theorem C7_witness :
    (∀ j, j < 1 → Ev.siteStop j ∈ (runApp envC7 sitesThree).1) ∧
    (∀ j, 1 < j → Ev.siteStart j ∉ (runApp envC7 sitesThree).1 ∧
      Ev.siteStartFail j ∉ (runApp envC7 sitesThree).1) ∧
    Ev.printBanner ∉ (runApp envC7 sitesThree).1 ∧
    ((runApp envC7 sitesThree).1).count Ev.cleanup = 1 ∧
    (runApp envC7 sitesThree).2 = some "address in use" :=
  C7_partial_start_failure envC7 sitesThree 1 "address in use" rfl
    (by simp [sitesThree]) rfl
    (fun j hj => by interval_cases j <;> rfl)

/-- Any two indices below `n`, in order, form a sublist of `range n`. -/
theorem pair_sublist_range :
    ∀ n i j, i < j → j < n → [i, j].Sublist (List.range n) := by
  intro n
  induction n with
  | zero => intro i j _ hj; omega
  | succ m ih =>
      intro i j hij hj
      rcases Nat.lt_succ_iff_lt_or_eq.mp hj with hj' | rfl
      · rw [List.range_succ]
        exact (ih i j hij hj').trans (List.sublist_append_left _ _)
      · rw [List.range_succ]
        exact List.Sublist.append
          (List.singleton_sublist.mpr (List.mem_range.mpr hij))
          (List.Sublist.refl [j])

/-- A run of three sites in which the second start raises, used to exhibit
that the third start never begins. -/
def envC8 : Env :=
  ⟨none, fun i => if i = 1 then some "bind error" else none,
    ServeEnd.gracefulExit, true⟩

/-- The three sites of the C8 counterexample run. -/
def sitesC8 : List Site :=
  [Site.tcp (some "x") (some 1), Site.tcp (some "y") (some 2),
    Site.tcp (some "z") (some 3)]

/-- C8 counterexample: in a run of three sites whose second start raises,
the third site's start neither succeeds nor fails — it never begins — so
the starts are not concurrent with every start settling before the
serve-wait: a later start depends on the earlier ones succeeding. -/
theorem C8_counterexample :
    Ev.siteStart 2 ∉ (runApp envC8 sitesC8).1 ∧
    Ev.siteStartFail 2 ∉ (runApp envC8 sitesC8).1 ∧
    Ev.serveWait ∉ (runApp envC8 sitesC8).1 := by decide

/-- C8 (amended): `run_app` starts the sites sequentially in list order —
each `site.start()` is awaited to completion before the next begins, and a
start raising prevents every later start — and when every start succeeds,
all of them have completed before the serve-wait state is entered. -/
theorem C8_sequential_starts (env : Env) (sites : List Site)
    (hsetup : env.setupErr = none)
    (hok : ∀ j, j < sites.length → env.startErr j = none) :
    (∀ i j, i < j → j < sites.length →
      [Ev.siteStart i, Ev.siteStart j].Sublist (runApp env sites).1) ∧
    (∀ i, i < sites.length →
      [Ev.siteStart i, Ev.serveWait].Sublist (runApp env sites).1) := by
  obtain ⟨rest, htr⟩ := runApp_ok_split env sites hsetup hok
  rw [htr]
  constructor
  · intro i j hij hj
    apply List.Sublist.cons
    have h1 : [Ev.siteStart i, Ev.siteStart j].Sublist
        ((List.range sites.length).map Ev.siteStart) :=
      (pair_sublist_range sites.length i j hij hj).map Ev.siteStart
    exact ((h1.trans (List.sublist_append_left _ _)).trans
      (List.sublist_append_left _ _)).trans (List.sublist_append_left _ _)
  · intro i hi
    apply List.Sublist.cons
    have h1 : [Ev.siteStart i].Sublist
        ((List.range sites.length).map Ev.siteStart ++
          (if env.printEnabled then [Ev.printBanner] else [])) :=
      List.singleton_sublist.mpr
        (List.mem_append_left _ (List.mem_map_of_mem _
          (List.mem_range.mpr hi)))
    exact (List.Sublist.append h1 (List.Sublist.refl [Ev.serveWait])).trans
      (List.sublist_append_left _ _)

/-- A run of two sites that both start, used as the C8 witness input. -/
def envC8w : Env :=
  ⟨none, fun _ => none, ServeEnd.gracefulExit, true⟩

/-- The two sites of the C8 witness run. -/
def sitesC8w : List Site :=
  [Site.tcp (some "x") (some 1), Site.unix "/s"]

/-- C8 witness: the amended theorem at a concrete two-site input. -/
theorem C8_witness :
    (∀ i j, i < j → j < sitesC8w.length →
      [Ev.siteStart i, Ev.siteStart j].Sublist (runApp envC8w sitesC8w).1) ∧
    (∀ i, i < sitesC8w.length →
      [Ev.siteStart i, Ev.serveWait].Sublist (runApp envC8w sitesC8w).1) :=
  C8_sequential_starts envC8w sitesC8w rfl (fun j _ => rfl)

/-- The parsed CLI arguments of `main` (src/aiohttp/web.py lines 156-182):
the positional entry function in module:function form, the hostname flag
(argparse default "localhost"), the port flag (argparse default 8080, never
absent), and the optional path flag. -/
structure CliArgs where
  entryFunc : String
  hostname : String
  port : Nat
  path : Option String
  deriving DecidableEq, Repr

/-- The distinct `arg_parser.error` exits of `main`, each of which prints
its diagnostic and terminates the process with a non-zero status before the
application factory is called. -/
inductive MainError where
  | badEntryFuncSyntax
  | relativeModuleName
  | importFailed
  | noSuchAttribute
  | pathsUnsupported
  deriving DecidableEq, Repr

/-- The diagnostic message each `arg_parser.error` call prints, from the
source. -/
def errorMessage : MainError → String
  | MainError.badEntryFuncSyntax => "entry-func not in module:function syntax"
  | MainError.relativeModuleName => "relative module names not supported"
  | MainError.importFailed => "unable to import module"
  | MainError.noSuchAttribute => "module has no attribute"
  | MainError.pathsUnsupported =>
      "file system paths not supported by your operating environment"

/-- What a `main` invocation did before (or instead of) serving: whether
the application factory was called, the site list `run_app` then built,
and the error `main` exited with, if any. -/
structure MainOutcome where
  factoryCalled : Bool
  sites : List Site
  failed : Option MainError
  deriving DecidableEq, Repr

/-- Split a character list at its first colon (code point 58): `none` when
no colon occurs, otherwise the characters before and after it. -/
def breakAtColon : List Char → Option (List Char × List Char)
  | [] => none
  | c :: cs =>
      if c.toNat = 58 then some ([], cs)
      else
        match breakAtColon cs with
        | none => none
        | some (l, r) => some (c :: l, r)

/-- Python's `str.partition` on the first colon of the entry function:
the text before the first colon and the text after it (empty when there is
no colon). -/
def partitionColon (s : String) : String × String :=
  match breakAtColon s.data with
  | none => (s, "")
  | some (l, r) => (String.mk l, String.mk r)

/-- Python's `str.startswith` with a dot argument: whether the first
character is a dot (code point 46). -/
def startsWithDot (s : String) : Bool :=
  match s.data with
  | [] => false
  | c :: _ => c.toNat == 46

/-- The `main` CLI entry point (src/aiohttp/web.py lines 155-210) up to the
point `run_app` builds its sites: validate the module:function syntax of
the entry function, reject relative module names, fail when the import or
the attribute lookup fails (`importOk` / `attrOk` abstract those outcomes),
fail when a path was given but the platform lacks `AF_UNIX`
(`hasAFUnix`), and otherwise call the factory and invoke
`run_app(app, host=args.hostname, port=args.port, path=args.path)`. -/
def mainModel (args : CliArgs) (hasAFUnix importOk attrOk : Bool) :
    MainOutcome :=
  let mod := (partitionColon args.entryFunc).1
  let func := (partitionColon args.entryFunc).2
  if func = "" ∨ mod = "" then ⟨false, [], some MainError.badEntryFuncSyntax⟩
  else if startsWithDot mod then
    ⟨false, [], some MainError.relativeModuleName⟩
  else if !importOk then ⟨false, [], some MainError.importFailed⟩
  else if !attrOk then ⟨false, [], some MainError.noSuchAttribute⟩
  else if args.path.isSome && !hasAFUnix then
    ⟨false, [], some MainError.pathsUnsupported⟩
  else
    ⟨true, buildSites (some (ArgSpec.single args.hostname)) (some args.port)
      (args.path.map ArgSpec.single) none, none⟩

/-- C9: a CLI invocation with a path argument on a platform whose socket
module lacks `AF_UNIX` fails at the compatibility check (line 202) — the
application factory is never called, no site is built, `main` exits
non-zero via `arg_parser.error` — and the diagnostic names the unsupported
transport (file system paths). -/
theorem C9_path_without_af_unix (args : CliArgs) (p : String)
    (importOk attrOk : Bool) (hpath : args.path = some p)
    (hfunc : (partitionColon args.entryFunc).2 ≠ "")
    (hmod : (partitionColon args.entryFunc).1 ≠ "")
    (hrel : ¬startsWithDot (partitionColon args.entryFunc).1)
    (himp : importOk = true) (hattr : attrOk = true) :
    mainModel args false importOk attrOk =
      ⟨false, [], some MainError.pathsUnsupported⟩ ∧
    errorMessage MainError.pathsUnsupported =
      "file system paths not supported by your operating environment" := by
  refine ⟨?_, rfl⟩
  simp [mainModel, hfunc, hmod, hrel, himp, hattr, hpath]

/-- C9 witness: the theorem at the scenario of spec section 8 — path
"/tmp/a.sock" and a well-formed entry function — on a platform without
`AF_UNIX`. -/
theorem C9_witness :
    mainModel ⟨"pkg:app", "localhost", 8080, some "/tmp/a.sock"⟩
        false true true =
      ⟨false, [], some MainError.pathsUnsupported⟩ ∧
    errorMessage MainError.pathsUnsupported =
      "file system paths not supported by your operating environment" :=
  C9_path_without_af_unix ⟨"pkg:app", "localhost", 8080, some "/tmp/a.sock"⟩
    "/tmp/a.sock" true true rfl (by decide) (by decide) (by decide) rfl rfl

/-- C10: at the defaulted CLI invocation with a path supplied, `main`
passes `host=args.hostname` (argparse default "localhost") to `run_app`
unconditionally, so rule 1 fires and a TCP site derived from the hostname
flag is built alongside the Unix site — contradicting the claim (and the
code's own `--path` help text, which says the hostname and port arguments
are ignored when a path is specified). -/
theorem C10_hostname_tcp_site_built_with_path :
    (mainModel ⟨"mod:func", "localhost", 8080, some "/tmp/a.sock"⟩
        true true true).sites =
      [Site.tcp (some "localhost") (some 8080), Site.unix "/tmp/a.sock"] ∧
    Site.tcp (some "localhost") (some 8080) ∈
      (mainModel ⟨"mod:func", "localhost", 8080, some "/tmp/a.sock"⟩
        true true true).sites := by
  constructor
  · rfl
  · decide

end Aiohttp
